import Mathlib

/-!
Shallow embedding of `rtcbot/base.py`: the subscription fan-out machinery of
`BaseSubscriptionProducer`, the subscription-switching consumer
`BaseSubscriptionConsumer`, and their thread/process-bridged variants.

Modelling conventions:
* Python objects passed to `subscribe`/`unsubscribe` are modelled by `Obj`:
  an identity (`id : Nat`, Python object identity) together with the two
  capabilities the code inspects dynamically —
  `callable(getattr(subscription, "put_nowait", None))` and
  `inspect.iscoroutinefunction(subscription)`.
* `asyncio.Queue` instances are modelled by their identity (a `Nat`) plus a
  world mapping each identity to its FIFO buffer (`queues : Nat → List α`,
  front of the list = oldest element); `put_nowait` appends at the back and
  `get` pops the front, which is exactly the asyncio.Queue contract the code
  relies on.
* Synchronous callback invocation and `asyncio.ensure_future` scheduling are
  recorded in per-callback logs (`callLog`, `scheduled`), in invocation order.
* `asyncio` tasks created by `BaseSubscriptionConsumer._get` are modelled by
  `TaskInfo` (which subscription the task waits on, whether it has been
  cancelled, whether it is done), and the cooperative interleaving of the
  `_get` wait loop with concurrently arriving `putSubscription` / `stop` /
  `put_nowait` / `close` calls is modelled by a script of `WaitEvent`s that
  the loop consumes while awaiting.
-/

/-- An object passed to `subscribe`/`unsubscribe`: Python identity plus the two
capabilities `BaseSubscriptionProducer.subscribe` inspects. -/
structure Obj where
  id : Nat
  hasPutNowait : Bool
  isCoroutineFunction : Bool
deriving DecidableEq, Repr

/-- State of `BaseSubscriptionProducer`, together with the world of queue
buffers and callback logs its operations act on. -/
structure ProducerState (α : Type) where
  subscriptions : Finset Obj
  callbacks : Finset Obj
  cocallbacks : Finset Obj
  defaultSubscription : Option Obj
  shouldClose : Bool
  ready : Bool
  queues : Obj → List α
  callLog : Obj → List α
  scheduled : Obj → List α
  nextId : Nat

namespace BaseSubscriptionProducer

variable {α : Type}

/-- The object constructed by `self.__defaultSubscriptionClass()` with the
default class `asyncio.Queue`: a fresh object exposing `put_nowait`. -/
def mkDefaultSubscription (n : Nat) : Obj :=
  ⟨n, true, false⟩

/-- The `__init__` state of `BaseSubscriptionProducer` (with
`defaultAutosubscribe=False`): empty registries, no default subscription,
`_shouldClose = False`, `_ready = ready`. -/
def init (α : Type) (ready : Bool) : ProducerState α :=
  { subscriptions := ∅
    callbacks := ∅
    cocallbacks := ∅
    defaultSubscription := none
    shouldClose := false
    ready := ready
    queues := fun _ => []
    callLog := fun _ => []
    scheduled := fun _ => []
    nextId := 0 }

/-- `BaseSubscriptionProducer.subscribe`: constructs a default subscription when
none is given, classifies the argument by capability and registers it in the
corresponding set, and returns the (possibly newly constructed) subscription. -/
def subscribe (s : ProducerState α) (subscription : Option Obj) :
    ProducerState α × Obj :=
  let sub := match subscription with
    | none => mkDefaultSubscription s.nextId
    | some o => o
  let s := match subscription with
    | none => { s with nextId := s.nextId + 1 }
    | some _ => s
  if sub.hasPutNowait then
    ({ s with subscriptions := insert sub s.subscriptions }, sub)
  else if sub.isCoroutineFunction then
    ({ s with cocallbacks := insert sub s.cocallbacks }, sub)
  else
    ({ s with callbacks := insert sub s.callbacks }, sub)

/-- `BaseSubscriptionProducer._put_nowait`: `put_nowait` the element into every
queue-like subscription, call every synchronous callback inline, and schedule
(`asyncio.ensure_future`) one invocation per asynchronous callback. -/
def put_nowait (s : ProducerState α) (element : α) : ProducerState α :=
  { s with
    queues := fun q =>
      if q ∈ s.subscriptions then s.queues q ++ [element] else s.queues q
    callLog := fun c =>
      if c ∈ s.callbacks then s.callLog c ++ [element] else s.callLog c
    scheduled := fun c =>
      if c ∈ s.cocallbacks then s.scheduled c ++ [element] else s.scheduled c }

/-- Error raised by `unsubscribe` on an unregistered object (`set.remove`
raises `KeyError`). -/
inductive UnsubscribeError
  | notRegistered
deriving DecidableEq, Repr

/-- `BaseSubscriptionProducer.unsubscribe` with an explicit argument:
classifies by capability and removes from the corresponding registry;
`set.remove` fails when the object is absent. -/
def unsubscribeObj (s : ProducerState α) (subscription : Obj) :
    Except UnsubscribeError (ProducerState α) :=
  if subscription.hasPutNowait then
    if subscription ∈ s.subscriptions then
      .ok { s with subscriptions := s.subscriptions.erase subscription }
    else .error .notRegistered
  else if subscription.isCoroutineFunction then
    if subscription ∈ s.cocallbacks then
      .ok { s with cocallbacks := s.cocallbacks.erase subscription }
    else .error .notRegistered
  else
    if subscription ∈ s.callbacks then
      .ok { s with callbacks := s.callbacks.erase subscription }
    else .error .notRegistered

/-- `BaseSubscriptionProducer.unsubscribe`: with no argument, removes the
default subscription when one exists (and forgets it) and does nothing
otherwise; with an argument, delegates to the registry removal. -/
def unsubscribe (s : ProducerState α) (subscription : Option Obj) :
    Except UnsubscribeError (ProducerState α) :=
  match subscription with
  | none =>
    match s.defaultSubscription with
    | none => .ok s
    | some d =>
      (unsubscribeObj s d).map fun s' =>
        { s' with defaultSubscription := none }
  | some sub => unsubscribeObj s sub

/-- `BaseSubscriptionProducer.unsubscribeAll`: clears all three registries and
forgets the default subscription. -/
def unsubscribeAll (s : ProducerState α) : ProducerState α :=
  { s with
    subscriptions := ∅
    callbacks := ∅
    cocallbacks := ∅
    defaultSubscription := none }

/-- `BaseSubscriptionProducer.__defaultSubscribe`: creates the default
subscription via `subscribe()` when it is absent. -/
def defaultSubscribe (s : ProducerState α) : ProducerState α :=
  match s.defaultSubscription with
  | some _ => s
  | none =>
    let (s', sub) := subscribe s none
    { s' with defaultSubscription := some sub }

/-- `BaseSubscriptionProducer.get`: ensures the default subscription exists,
then awaits `defaultSubscription.get()`. The returned `Option` is `none` when
the default subscription's queue is empty (the coroutine would suspend). -/
def get (s : ProducerState α) : Option α × ProducerState α :=
  let s' := defaultSubscribe s
  match s'.defaultSubscription with
  | none => (none, s')
  | some d =>
    match s'.queues d with
    | [] => (none, s')
    | x :: rest => (some x, { s' with queues := fun q => if q = d then rest else s'.queues q })

/-- `BaseSubscriptionProducer.close`: sets `_shouldClose`, clears all
subscriptions, flips `_ready` to `False`. -/
def close (s : ProducerState α) : ProducerState α :=
  { unsubscribeAll s with shouldClose := true, ready := false }

/-- Registries contain only objects of the capability class that `subscribe`
files them under. This holds from `init` on, because classification is by
capability. -/
def WellClassified (s : ProducerState α) : Prop :=
  (∀ o ∈ s.subscriptions, o.hasPutNowait = true) ∧
  (∀ o ∈ s.cocallbacks, o.hasPutNowait = false ∧ o.isCoroutineFunction = true) ∧
  (∀ o ∈ s.callbacks, o.hasPutNowait = false ∧ o.isCoroutineFunction = false)

/-- Membership count of an object across the three registries. -/
def registryCount (s : ProducerState α) (o : Obj) : Nat :=
  (if o ∈ s.subscriptions then 1 else 0) +
  (if o ∈ s.cocallbacks then 1 else 0) +
  (if o ∈ s.callbacks then 1 else 0)

end BaseSubscriptionProducer

/-- An asyncio task created by `BaseSubscriptionConsumer._get` via
`asyncio.create_task(self._subscription.get())`: which subscription it waits
on, whether `cancel()` has been called on it, and whether it is done. -/
structure TaskInfo where
  subId : Nat
  cancelled : Bool
  done : Bool
deriving DecidableEq, Repr

/-- State of `BaseSubscriptionConsumer`, with the world of queue buffers its
subscriptions draw from. Subscriptions on the consumer side are identified by
`Nat` (asyncio object identity); `queues` maps each to its FIFO buffer. -/
structure ConsumerState (α : Type) where
  directPutSubscription : Nat
  _subscription : Nat
  shouldClose : Bool
  ready : Bool
  getTask : Option TaskInfo
  queues : Nat → List α
  nextId : Nat

namespace BaseSubscriptionConsumer

variable {α : Type}

/-- The `__init__` state of `BaseSubscriptionConsumer`: a fresh direct-feed
queue (identity 0) is constructed and installed as the active subscription,
`_shouldClose = False`, `_getTask = None`. -/
def init (α : Type) (ready : Bool) : ConsumerState α :=
  { directPutSubscription := 0
    _subscription := 0
    shouldClose := false
    ready := ready
    getTask := none
    queues := fun _ => []
    nextId := 1 }

/-- Cancellation of the in-flight task, as performed by `putSubscription` and
`close`: `if self._getTask is not None and not self._getTask.done():
self._getTask.cancel()`. -/
def cancelGetTask (t : Option TaskInfo) : Option TaskInfo :=
  match t with
  | none => none
  | some task => if task.done then some task else some { task with cancelled := true }

/-- `BaseSubscriptionConsumer.putSubscription`: no-op when the argument is
already the active subscription; otherwise replaces the active reference and
cancels the in-flight wait task when one is running. -/
def putSubscription (s : ConsumerState α) (subscription : Nat) : ConsumerState α :=
  if subscription = s._subscription then s
  else
    { s with
      _subscription := subscription
      getTask := cancelGetTask s.getTask }

/-- `BaseSubscriptionConsumer.stop`: constructs a brand-new direct-feed queue
and installs it via `putSubscription`. -/
def stop (s : ConsumerState α) : ConsumerState α :=
  let fresh := s.nextId
  putSubscription { s with directPutSubscription := fresh, nextId := s.nextId + 1 } fresh

/-- `BaseSubscriptionConsumer.put_nowait`: when the active subscription is not
the direct-feed queue, first `stop()`, then enqueue the data into the
direct-feed queue. -/
def put_nowait (s : ConsumerState α) (data : α) : ConsumerState α :=
  let s1 := if s._subscription ≠ s.directPutSubscription then stop s else s
  { s1 with
    queues := fun q =>
      if q = s1.directPutSubscription then s1.queues q ++ [data] else s1.queues q }

/-- `BaseSubscriptionConsumer.close`: clears `_ready`, sets `_shouldClose`,
and cancels the in-flight wait task when one is running. -/
def close (s : ConsumerState α) : ConsumerState α :=
  { s with
    ready := false
    shouldClose := true
    getTask := cancelGetTask s.getTask }

/-- The read-only `subscription` property: `None` when the active subscription
is the internal direct-feed queue, otherwise the active subscription. -/
def subscription (s : ConsumerState α) : Option Nat :=
  if s._subscription = s.directPutSubscription then none
  else some s._subscription

/-- The top of each `_get` loop iteration:
`self._getTask = asyncio.create_task(self._subscription.get())`. -/
def startTask (s : ConsumerState α) : ConsumerState α :=
  { s with getTask := some ⟨s._subscription, false, false⟩ }

/-- Marks the in-flight task finished (its `await` has delivered an outcome to
the `_get` loop). -/
def finishTask (s : ConsumerState α) : ConsumerState α :=
  { s with
    getTask := match s.getTask with
      | none => none
      | some t => some { t with done := true } }

/-- A consumer-core method invoked concurrently (from the owning event loop)
while `_get` is suspended on `await self._getTask`. -/
inductive ConsumerAction (α : Type)
  | putSub (subscription : Nat)
  | putNowait (data : α)
  | stopA
  | closeA
deriving Repr

/-- Interpretation of a concurrently arriving consumer-core call. -/
def applyAction (s : ConsumerState α) : ConsumerAction α → ConsumerState α
  | .putSub k => putSubscription s k
  | .putNowait x => put_nowait s x
  | .stopA => stop s
  | .closeA => close s

/-- One event observed by the suspended `_get` loop: either an external call
runs on the event loop, or the awaited task produces an outcome (completes
with a value / is cancelled / raises `SubscriptionClosed` / raises some other
exception). -/
inductive WaitEvent (α : Type)
  | ext (a : ConsumerAction α)
  | resolve
  | raiseClosed
  | raiseOther
deriving Repr

/-- Outcome of running `_get` against a script of events. `value x src s`
records (ghost information) the identity `src` of the subscription the
returned value was taken from. `pending` means the script ended while the
loop was still waiting. -/
inductive GetOutcome (α : Type)
  | value (x : α) (src : Nat) (s : ConsumerState α)
  | closed (s : ConsumerState α)
  | pending (s : ConsumerState α)

/-- The body of `_get`'s `while not self._shouldClose` loop, driven by a
script of events. Invoked with a freshly started task. On `CancelledError`,
`SubscriptionClosed`, or any other exception from the task, the loop returns
to its head: it re-checks `_shouldClose` and starts a new task on the current
active subscription. A `resolve` event completes the task with the front of
its subscription's queue when the task is live and data is available. -/
def getGo : ConsumerState α → List (WaitEvent α) → GetOutcome α
  | s, [] => .pending s
  | s, e :: rest =>
    match e with
    | .ext a => getGo (applyAction s a) rest
    | .resolve =>
      match s.getTask with
      | none => getGo s rest
      | some t =>
        if t.done then getGo s rest
        else if t.cancelled then
          let s' := finishTask s
          if s'.shouldClose then .closed s'
          else getGo (startTask s') rest
        else
          match s.queues t.subId with
          | [] => getGo s rest
          | x :: xs =>
            let s' := finishTask s
            .value x t.subId
              { s' with queues := fun q => if q = t.subId then xs else s'.queues q }
    | .raiseClosed =>
      match s.getTask with
      | none => getGo s rest
      | some t =>
        if t.done then getGo s rest
        else
          let s' := finishTask s
          if s'.shouldClose then .closed s'
          else getGo (startTask s') rest
    | .raiseOther =>
      match s.getTask with
      | none => getGo s rest
      | some t =>
        if t.done then getGo s rest
        else
          let s' := finishTask s
          if s'.shouldClose then .closed s'
          else getGo (startTask s') rest

/-- `BaseSubscriptionConsumer._get`: checks `_shouldClose` (raising
`SubscriptionClosed` immediately when set), otherwise starts a task on the
active subscription and runs the wait loop against the event script. -/
def get (s : ConsumerState α) (script : List (WaitEvent α)) : GetOutcome α :=
  if s.shouldClose then .closed s
  else getGo (startTask s) script

end BaseSubscriptionConsumer

namespace ThreadedSubscriptionConsumer

variable {α : Type}

/-- One event observed by `ThreadedSubscriptionConsumer._get` while blocked on
`self._getTask.result(1)`: an external call runs on the event loop, the
cross-thread future produces an outcome, or the bounded one-second wait times
out. -/
inductive TWaitEvent (α : Type)
  | ext (a : BaseSubscriptionConsumer.ConsumerAction α)
  | resolve
  | timeout
  | raiseClosed
deriving Repr

open BaseSubscriptionConsumer in
/-- The body of `ThreadedSubscriptionConsumer._get`'s
`while not self._shouldClose` loop, driven by a script of events, entered
with a freshly submitted cross-thread task. `CancelledError`,
`asyncio.TimeoutError` and `SubscriptionClosed` are all caught, returning to
the loop head: `_shouldClose` is re-checked and (when still false) a new task
is submitted on the current active subscription. -/
def tGetGo : ConsumerState α → List (TWaitEvent α) → GetOutcome α
  | s, [] => .pending s
  | s, e :: rest =>
    match e with
    | .ext a => tGetGo (applyAction s a) rest
    | .resolve =>
      match s.getTask with
      | none => tGetGo s rest
      | some t =>
        if t.done then tGetGo s rest
        else if t.cancelled then
          let s' := finishTask s
          if s'.shouldClose then .closed s'
          else tGetGo (startTask s') rest
        else
          match s.queues t.subId with
          | [] => tGetGo s rest
          | x :: xs =>
            let s' := finishTask s
            .value x t.subId
              { s' with queues := fun q => if q = t.subId then xs else s'.queues q }
    | .timeout =>
      match s.getTask with
      | none => tGetGo s rest
      | some t =>
        if t.done then tGetGo s rest
        else
          if s.shouldClose then .closed s
          else tGetGo (startTask s) rest
    | .raiseClosed =>
      match s.getTask with
      | none => tGetGo s rest
      | some t =>
        if t.done then tGetGo s rest
        else
          let s' := BaseSubscriptionConsumer.finishTask s
          if s'.shouldClose then .closed s'
          else tGetGo (startTask s') rest

open BaseSubscriptionConsumer in
/-- `ThreadedSubscriptionConsumer._get`: checks `_shouldClose` (raising
`SubscriptionClosed` when set), otherwise submits
`run_coroutine_threadsafe(self._subscription.get(), self._loop)` under the
task lock and blocks on the result with a one-second timeout, looping as
`tGetGo` describes. -/
def tGet (s : ConsumerState α) (script : List (TWaitEvent α)) : GetOutcome α :=
  if s.shouldClose then .closed s
  else tGetGo (startTask s) script

/-- `ThreadedSubscriptionConsumer.putSubscription`: takes the task lock and
delegates to the base implementation (the lock serialises it against the
submit-and-wait sequence; the state transformation is the base one). -/
def putSubscription (s : ConsumerState α) (subscription : Nat) : ConsumerState α :=
  BaseSubscriptionConsumer.putSubscription s subscription

/-- `ThreadedSubscriptionConsumer.close`: takes the task lock, runs the base
`close`, then joins the consumer thread (no further state change). -/
def close (s : ConsumerState α) : ConsumerState α :=
  BaseSubscriptionConsumer.close s

end ThreadedSubscriptionConsumer

namespace ThreadedSubscriptionProducer

variable {α : Type}

/-- `ThreadedSubscriptionProducer._put_nowait`: marshals the base broadcast
onto the owning event loop via `call_soon_threadsafe`; the state
transformation it schedules is the base `_put_nowait`. -/
def put_nowait (s : ProducerState α) (data : α) : ProducerState α :=
  BaseSubscriptionProducer.put_nowait s data

/-- `ThreadedSubscriptionProducer.close`: runs the base `close`, then joins
the producer thread (no further state change). -/
def close (s : ProducerState α) : ProducerState α :=
  BaseSubscriptionProducer.close s

end ThreadedSubscriptionProducer

/-- State of `ProcessSubscriptionProducer`: the inherited base-producer state
(whose `shouldClose`/`ready` fields are shadowed by the cross-process events
and never consulted), the two `multiprocessing.Event`s, and the
`multiprocessing.Queue` that items flow through. -/
structure ProcessProducerState (α : Type) where
  base : ProducerState α
  closeEvent : Bool
  readyEvent : Bool
  producerQueue : List α

namespace ProcessSubscriptionProducer

variable {α : Type}

/-- The `_shouldClose` property getter: `self.__closeEvent.is_set()`. -/
def shouldClose (s : ProcessProducerState α) : Bool :=
  s.closeEvent

/-- The `_shouldClose` property setter: sets or clears the close event. -/
def setShouldClose (s : ProcessProducerState α) (value : Bool) : ProcessProducerState α :=
  if value then { s with closeEvent := true } else { s with closeEvent := false }

/-- The `_ready` property setter: sets or clears the ready event. -/
def setReady (s : ProcessProducerState α) (value : Bool) : ProcessProducerState α :=
  if value then { s with readyEvent := true } else { s with readyEvent := false }

/-- `ProcessSubscriptionProducer._put_nowait` (runs in the child process):
puts the data on the cross-process queue. -/
def put_nowait (s : ProcessProducerState α) (data : α) : ProcessProducerState α :=
  { s with producerQueue := s.producerQueue ++ [data] }

/-- One iteration of `ProcessSubscriptionProducer.__queueReader`: while the
close event is clear, takes an item off the cross-process queue (when one
arrives within the timeout) and schedules the base broadcast for it on the
owning event loop. -/
def queueReaderStep (s : ProcessProducerState α) : ProcessProducerState α :=
  if shouldClose s then s
  else
    match s.producerQueue with
    | [] => s
    | data :: rest =>
      { s with
        producerQueue := rest
        base := BaseSubscriptionProducer.put_nowait s.base data }

/-- `ProcessSubscriptionProducer.close`: the base `close` runs with the
property-backed flags, so it sets the close event, clears all subscriptions
and clears the ready event; the subsequent joins/terminate change no modelled
state. -/
def close (s : ProcessProducerState α) : ProcessProducerState α :=
  let s1 := setShouldClose s true
  let s2 := { s1 with base := BaseSubscriptionProducer.unsubscribeAll s1.base }
  setReady s2 false

/-- The tail of `ProcessSubscriptionProducer.__producerSetup` (runs in the
child process when the acquisition routine returns or raises): clears the
ready event, then sets the close event. -/
def producerSetupExit (s : ProcessProducerState α) : ProcessProducerState α :=
  setShouldClose (setReady s false) true

/-- `ProcessSubscriptionProducer.subscribe` is inherited from the base class
and acts on the base registry state only. -/
def subscribe (s : ProcessProducerState α) (subscription : Option Obj) :
    ProcessProducerState α × Obj :=
  let (b, sub) := BaseSubscriptionProducer.subscribe s.base subscription
  ({ s with base := b }, sub)

end ProcessSubscriptionProducer

namespace BaseSubscriptionProducer

variable {α : Type}

theorem put_nowait_subscriptions (s : ProducerState α) (x : α) :
    (put_nowait s x).subscriptions = s.subscriptions := rfl

theorem put_nowait_queues_mem (s : ProducerState α) (x : α) {q : Obj}
    (hq : q ∈ s.subscriptions) :
    (put_nowait s x).queues q = s.queues q ++ [x] := by
  simp [put_nowait, hq]

theorem foldl_put_nowait_queues (items : List α) (s : ProducerState α) {q : Obj}
    (hq : q ∈ s.subscriptions) :
    (List.foldl put_nowait s items).queues q = s.queues q ++ items := by
  induction items generalizing s with
  | nil => simp
  | cons y ys ih =>
    have hq' : q ∈ (put_nowait s y).subscriptions := hq
    simp only [List.foldl_cons]
    rw [ih (put_nowait s y) hq', put_nowait_queues_mem s y hq, List.append_assoc]
    rfl

/-- A producer whose three registries each hold one subscriber, used to
instantiate the hypothesis-bearing theorems. -/
def sampleProducer : ProducerState Nat :=
  { subscriptions := {⟨0, true, false⟩}
    callbacks := {⟨1, false, false⟩}
    cocallbacks := {⟨2, false, true⟩}
    defaultSubscription := none
    shouldClose := false
    ready := true
    queues := fun _ => []
    callLog := fun _ => []
    scheduled := fun _ => []
    nextId := 3 }

end BaseSubscriptionProducer

open BaseSubscriptionProducer in
/-- C1: `_put_nowait` delivers the item to every registered queue-like
subscription by a non-blocking `put_nowait` (appending it exactly once at the
back of that subscriber's buffer), invokes every registered synchronous
callback inline with the item, schedules one fire-and-forget invocation per
registered asynchronous callback, and over any sequence of broadcasts a
queue-like subscriber registered throughout receives exactly the broadcast
items, in the order broadcast. -/
theorem claim1_put_nowait_broadcast (s : ProducerState α) (x : α) :
    (∀ q ∈ s.subscriptions, (put_nowait s x).queues q = s.queues q ++ [x]) ∧
    (∀ c ∈ s.callbacks, (put_nowait s x).callLog c = s.callLog c ++ [x]) ∧
    (∀ c ∈ s.cocallbacks, (put_nowait s x).scheduled c = s.scheduled c ++ [x]) ∧
    (∀ items : List α, ∀ q ∈ s.subscriptions,
      (List.foldl put_nowait s items).queues q = s.queues q ++ items) := by
  refine ⟨fun q hq => ?_, fun c hc => ?_, fun c hc => ?_,
    fun items q hq => foldl_put_nowait_queues items s hq⟩
  · simp [put_nowait, hq]
  · simp [put_nowait, hc]
  · simp [put_nowait, hc]

open BaseSubscriptionProducer in
/-- C1, instantiated: a producer with one subscriber of each kind, broadcasting
`7` and then the sequence `[1, 2, 3]`. -/
theorem claim1_put_nowait_broadcast_witness :
    (put_nowait sampleProducer 7).queues ⟨0, true, false⟩ = [7] ∧
    (put_nowait sampleProducer 7).callLog ⟨1, false, false⟩ = [7] ∧
    (put_nowait sampleProducer 7).scheduled ⟨2, false, true⟩ = [7] ∧
    (List.foldl put_nowait sampleProducer [1, 2, 3]).queues ⟨0, true, false⟩ =
      [1, 2, 3] :=
  ⟨(claim1_put_nowait_broadcast sampleProducer 7).1 ⟨0, true, false⟩ (by decide),
   (claim1_put_nowait_broadcast sampleProducer 7).2.1 ⟨1, false, false⟩ (by decide),
   (claim1_put_nowait_broadcast sampleProducer 7).2.2.1 ⟨2, false, true⟩ (by decide),
   (claim1_put_nowait_broadcast sampleProducer 7).2.2.2 [1, 2, 3] ⟨0, true, false⟩
     (by decide)⟩

namespace BaseSubscriptionProducer

variable {α : Type}

theorem wellClassified_init (α : Type) (r : Bool) : WellClassified (init α r) := by
  refine ⟨?_, ?_, ?_⟩ <;> intro o ho <;> simp [init] at ho

theorem wellClassified_subscribe {s : ProducerState α} (h : WellClassified s)
    (a : Option Obj) : WellClassified (subscribe s a).1 := by
  obtain ⟨h1, h2, h3⟩ := h
  match a with
  | none =>
    refine ⟨?_, ?_, ?_⟩ <;> intro o ho <;>
      simp [subscribe, mkDefaultSubscription] at ho ⊢
    · rcases ho with ho | ho
      · simp [ho]
      · exact h1 o ho
    · exact h2 o ho
    · exact h3 o ho
  | some b =>
    by_cases hb1 : b.hasPutNowait
    · refine ⟨?_, ?_, ?_⟩ <;> intro o ho <;> simp [subscribe, hb1] at ho ⊢
      · rcases ho with ho | ho
        · simp [ho, hb1]
        · exact h1 o ho
      · exact h2 o ho
      · exact h3 o ho
    · by_cases hb2 : b.isCoroutineFunction
      · refine ⟨?_, ?_, ?_⟩ <;> intro o ho <;> simp [subscribe, hb1, hb2] at ho ⊢
        · exact h1 o ho
        · rcases ho with ho | ho
          · simp [ho, hb1, hb2]
          · exact h2 o ho
        · exact h3 o ho
      · refine ⟨?_, ?_, ?_⟩ <;> intro o ho <;> simp [subscribe, hb1, hb2] at ho ⊢
        · exact h1 o ho
        · exact h2 o ho
        · rcases ho with ho | ho
          · simp [ho, hb1, hb2]
          · exact h3 o ho

theorem registryCount_le_one {s : ProducerState α} (h : WellClassified s)
    (x : Obj) : registryCount s x ≤ 1 := by
  obtain ⟨h1, h2, h3⟩ := h
  by_cases hs : x ∈ s.subscriptions
  · have hp := h1 x hs
    have hc2 : x ∉ s.cocallbacks := fun hm => by
      have := (h2 x hm).1
      simp [hp] at this
    have hc3 : x ∉ s.callbacks := fun hm => by
      have := (h3 x hm).1
      simp [hp] at this
    simp [registryCount, hs, hc2, hc3]
  · by_cases hc : x ∈ s.cocallbacks
    · have hco := (h2 x hc).2
      have hc3 : x ∉ s.callbacks := fun hm => by
        have := (h3 x hm).2
        simp [hco] at this
      simp [registryCount, hs, hc, hc3]
    · by_cases hb : x ∈ s.callbacks <;> simp [registryCount, hs, hc, hb]

theorem wellClassified_foldl_subscribe (args : List (Option Obj))
    {s : ProducerState α} (h : WellClassified s) :
    WellClassified (List.foldl (fun t a => (subscribe t a).1) s args) := by
  induction args generalizing s with
  | nil => exact h
  | cons a as ih => exact ih (wellClassified_subscribe h a)

end BaseSubscriptionProducer

open BaseSubscriptionProducer in
/-- C5: `subscribe` files its argument into exactly one of the three
registries according to its capabilities (a callable `put_nowait` wins, then
coroutine functions, then synchronous callbacks), returns the passed-in
subscription (or the newly constructed default one when omitted),
re-subscribing the same object changes nothing further (set semantics), and
after any sequence of `subscribe` calls starting from the initial state every
object belongs to at most one registry. -/
theorem claim5_subscribe_classification (s : ProducerState α) (o : Obj) :
    ((subscribe s (some o)).2 = o) ∧
    ((subscribe s none).2 = mkDefaultSubscription s.nextId) ∧
    (o.hasPutNowait = true →
      (subscribe s (some o)).1.subscriptions = insert o s.subscriptions ∧
      (subscribe s (some o)).1.callbacks = s.callbacks ∧
      (subscribe s (some o)).1.cocallbacks = s.cocallbacks) ∧
    (o.hasPutNowait = false → o.isCoroutineFunction = true →
      (subscribe s (some o)).1.cocallbacks = insert o s.cocallbacks ∧
      (subscribe s (some o)).1.subscriptions = s.subscriptions ∧
      (subscribe s (some o)).1.callbacks = s.callbacks) ∧
    (o.hasPutNowait = false → o.isCoroutineFunction = false →
      (subscribe s (some o)).1.callbacks = insert o s.callbacks ∧
      (subscribe s (some o)).1.subscriptions = s.subscriptions ∧
      (subscribe s (some o)).1.cocallbacks = s.cocallbacks) ∧
    ((subscribe (subscribe s (some o)).1 (some o)).1 = (subscribe s (some o)).1) ∧
    (∀ (r : Bool) (args : List (Option Obj)) (x : Obj),
      registryCount
        (List.foldl (fun t a => (subscribe t a).1) (init α r) args) x ≤ 1) := by
  refine ⟨?_, ?_, ?_, ?_, ?_, ?_, fun r args x => ?_⟩
  · by_cases h1 : o.hasPutNowait <;> by_cases h2 : o.isCoroutineFunction <;>
      simp [subscribe, h1, h2]
  · simp [subscribe, mkDefaultSubscription]
  · intro h1
    simp [subscribe, h1]
  · intro h1 h2
    simp [subscribe, h1, h2]
  · intro h1 h2
    simp [subscribe, h1, h2]
  · cases s
    by_cases h1 : o.hasPutNowait <;> by_cases h2 : o.isCoroutineFunction <;>
      simp [subscribe, h1, h2]
  · exact registryCount_le_one
      (wellClassified_foldl_subscribe args (wellClassified_init α r)) x

open BaseSubscriptionProducer in
/-- C5, instantiated: subscribing a queue-like object, a coroutine callback
and a plain callback to the sample producer. -/
theorem claim5_subscribe_classification_witness :
    ((subscribe sampleProducer (some ⟨7, true, false⟩)).2 = ⟨7, true, false⟩) ∧
    ((subscribe sampleProducer (some ⟨7, true, false⟩)).1.subscriptions =
      insert ⟨7, true, false⟩ sampleProducer.subscriptions) ∧
    ((subscribe sampleProducer (some ⟨8, false, true⟩)).1.cocallbacks =
      insert ⟨8, false, true⟩ sampleProducer.cocallbacks) ∧
    ((subscribe sampleProducer (some ⟨9, false, false⟩)).1.callbacks =
      insert ⟨9, false, false⟩ sampleProducer.callbacks) ∧
    ((subscribe (subscribe sampleProducer (some ⟨9, false, false⟩)).1
        (some ⟨9, false, false⟩)).1 =
      (subscribe sampleProducer (some ⟨9, false, false⟩)).1) ∧
    (registryCount
      (List.foldl (fun t a => (subscribe t a).1) (init Nat true)
        [some ⟨7, true, false⟩, some ⟨7, true, false⟩, none]) ⟨7, true, false⟩ ≤ 1) :=
  ⟨(claim5_subscribe_classification sampleProducer ⟨7, true, false⟩).1,
   ((claim5_subscribe_classification sampleProducer ⟨7, true, false⟩).2.2.1 rfl).1,
   ((claim5_subscribe_classification sampleProducer ⟨8, false, true⟩).2.2.2.1 rfl rfl).1,
   ((claim5_subscribe_classification sampleProducer ⟨9, false, false⟩).2.2.2.2.1 rfl rfl).1,
   (claim5_subscribe_classification sampleProducer ⟨9, false, false⟩).2.2.2.2.2.1,
   (claim5_subscribe_classification sampleProducer ⟨9, false, false⟩).2.2.2.2.2.2 true
     [some ⟨7, true, false⟩, some ⟨7, true, false⟩, none] ⟨7, true, false⟩⟩

open BaseSubscriptionProducer in
/-- C6: `unsubscribe` with an argument removes the object from the registry it
belongs to and fails with the NotFound-style error exactly when the object is
not currently registered; with no argument it removes and forgets the default
subscription, and is a no-op when no default subscription exists. -/
theorem claim6_unsubscribe (s : ProducerState α) (o : Obj) :
    (o.hasPutNowait = true → o ∈ s.subscriptions →
      unsubscribe s (some o) =
        .ok { s with subscriptions := s.subscriptions.erase o }) ∧
    (o.hasPutNowait = false → o.isCoroutineFunction = true → o ∈ s.cocallbacks →
      unsubscribe s (some o) =
        .ok { s with cocallbacks := s.cocallbacks.erase o }) ∧
    (o.hasPutNowait = false → o.isCoroutineFunction = false → o ∈ s.callbacks →
      unsubscribe s (some o) =
        .ok { s with callbacks := s.callbacks.erase o }) ∧
    (o ∉ s.subscriptions → o ∉ s.cocallbacks → o ∉ s.callbacks →
      unsubscribe s (some o) = .error .notRegistered) ∧
    (s.defaultSubscription = none → unsubscribe s none = .ok s) ∧
    (∀ d : Obj, s.defaultSubscription = some d → d.hasPutNowait = true →
      d ∈ s.subscriptions →
      unsubscribe s none =
        .ok { s with
          subscriptions := s.subscriptions.erase d
          defaultSubscription := none }) := by
  refine ⟨?_, ?_, ?_, ?_, ?_, ?_⟩
  · intro h1 hm
    simp [unsubscribe, unsubscribeObj, h1, hm]
  · intro h1 h2 hm
    simp [unsubscribe, unsubscribeObj, h1, h2, hm]
  · intro h1 h2 hm
    simp [unsubscribe, unsubscribeObj, h1, h2, hm]
  · intro hm1 hm2 hm3
    by_cases h1 : o.hasPutNowait <;> by_cases h2 : o.isCoroutineFunction <;>
      simp [unsubscribe, unsubscribeObj, h1, h2, hm1, hm2, hm3]
  · intro hd
    simp [unsubscribe, hd]
  · intro d hd h1 hm
    simp [unsubscribe, unsubscribeObj, hd, h1, hm, Except.map]

open BaseSubscriptionProducer in
/-- C6, instantiated: removing a registered subscriber succeeds, removing an
unregistered one fails, and the no-argument form removes the default
subscription of a producer that has one and does nothing on the sample
producer, which has none. -/
theorem claim6_unsubscribe_witness :
    (unsubscribe sampleProducer (some ⟨0, true, false⟩) =
      .ok { sampleProducer with
        subscriptions := sampleProducer.subscriptions.erase ⟨0, true, false⟩ }) ∧
    (unsubscribe sampleProducer (some ⟨5, true, false⟩) =
      .error .notRegistered) ∧
    (unsubscribe sampleProducer none = .ok sampleProducer) ∧
    (unsubscribe { sampleProducer with defaultSubscription := some ⟨0, true, false⟩ }
        none =
      .ok { sampleProducer with
        subscriptions := sampleProducer.subscriptions.erase ⟨0, true, false⟩
        defaultSubscription := none }) :=
  ⟨(claim6_unsubscribe sampleProducer ⟨0, true, false⟩).1 rfl (by decide),
   (claim6_unsubscribe sampleProducer ⟨5, true, false⟩).2.2.2.1
     (by decide) (by decide) (by decide),
   (claim6_unsubscribe sampleProducer ⟨0, true, false⟩).2.2.2.2.1 rfl,
   (claim6_unsubscribe
       { sampleProducer with defaultSubscription := some ⟨0, true, false⟩ }
       ⟨0, true, false⟩).2.2.2.2.2 ⟨0, true, false⟩ rfl rfl (by decide)⟩

namespace BaseSubscriptionProducer

variable {α : Type}

theorem get_defaultSubscription (s : ProducerState α) :
    (get s).2.defaultSubscription = (defaultSubscribe s).defaultSubscription := by
  unfold get
  cases hd : (defaultSubscribe s).defaultSubscription with
  | none => simp [hd]
  | some d => cases hq : (defaultSubscribe s).queues d <;> simp [hd, hq]

theorem defaultSubscribe_of_some {s : ProducerState α} {d : Obj}
    (h : s.defaultSubscription = some d) : defaultSubscribe s = s := by
  simp [defaultSubscribe, h]

theorem subscribe_none_eq (s : ProducerState α) :
    subscribe s none =
      ({ s with
          subscriptions := insert (mkDefaultSubscription s.nextId) s.subscriptions
          nextId := s.nextId + 1 },
        mkDefaultSubscription s.nextId) := by
  simp [subscribe, mkDefaultSubscription]

theorem defaultSubscribe_of_none {s : ProducerState α}
    (h : s.defaultSubscription = none) :
    defaultSubscribe s =
      { (subscribe s none).1 with
        defaultSubscription := some (mkDefaultSubscription s.nextId) } := by
  simp [defaultSubscribe, h, subscribe_none_eq]

end BaseSubscriptionProducer

open BaseSubscriptionProducer in
/-- C8: `get` lazily creates the default subscription on first call, every
later `get` keeps using that same default subscription, and after a
no-argument `unsubscribe` the next `get` creates a brand-new default
subscription whose buffer starts empty — the first wait after recreation
suspends instead of returning any of the old default subscription's backlog,
and the new default subscription subsequently receives exactly the items
broadcast after its creation, in order. -/
theorem claim8_get_default_lifecycle (s t : ProducerState α) :
    (s.defaultSubscription = none →
      (get s).2.defaultSubscription = some (mkDefaultSubscription s.nextId)) ∧
    (∀ d : Obj, t.defaultSubscription = some d →
      (get t).2.defaultSubscription = some d) ∧
    (∀ (d : Obj) (t' : ProducerState α),
      t.defaultSubscription = some d → d.hasPutNowait = true →
      d ∈ t.subscriptions → d.id < t.nextId →
      (∀ o : Obj, t.nextId ≤ o.id → t.queues o = []) →
      unsubscribe t none = .ok t' →
      (get t').2.defaultSubscription = some (mkDefaultSubscription t.nextId) ∧
      mkDefaultSubscription t.nextId ≠ d ∧
      (get t').1 = none ∧
      (get t').2.queues (mkDefaultSubscription t.nextId) = [] ∧
      (∀ zs : List α,
        (List.foldl put_nowait (get t').2 zs).queues
          (mkDefaultSubscription t.nextId) = zs)) := by
  refine ⟨?_, ?_, ?_⟩
  · intro h0
    rw [get_defaultSubscription, defaultSubscribe_of_none h0]
  · intro d hd
    rw [get_defaultSubscription, defaultSubscribe_of_some hd]
    exact hd
  · intro d t' hd hput hmem hid hfresh hok
    have ht' : t' =
        { t with
          subscriptions := t.subscriptions.erase d
          defaultSubscription := none } := by
      simp [unsubscribe, unsubscribeObj, hd, hput, hmem, Except.map] at hok
      exact hok.symm
    subst ht'
    have hqfresh : t.queues (mkDefaultSubscription t.nextId) = [] :=
      hfresh _ (le_refl t.nextId)
    have hne : mkDefaultSubscription t.nextId ≠ d := by
      intro he
      rw [← he] at hid
      simp [mkDefaultSubscription] at hid
    have hget :
        get { t with
            subscriptions := t.subscriptions.erase d
            defaultSubscription := none } =
          (none,
            { t with
              subscriptions :=
                insert (mkDefaultSubscription t.nextId) (t.subscriptions.erase d)
              defaultSubscription := some (mkDefaultSubscription t.nextId)
              nextId := t.nextId + 1 }) := by
      unfold BaseSubscriptionProducer.get
      rw [defaultSubscribe_of_none rfl, subscribe_none_eq]
      simp [hqfresh]
    rw [hget]
    refine ⟨rfl, hne, rfl, hqfresh, fun zs => ?_⟩
    rw [foldl_put_nowait_queues zs _ (Finset.mem_insert_self _ _)]
    simp [hqfresh]

namespace BaseSubscriptionProducer

/-- A producer whose default subscription `⟨0, true, false⟩` is active and has
a two-item backlog buffered. -/
def sampleWithDefault : ProducerState Nat :=
  { subscriptions := {⟨0, true, false⟩}
    callbacks := ∅
    cocallbacks := ∅
    defaultSubscription := some ⟨0, true, false⟩
    shouldClose := false
    ready := true
    queues := fun o => if o = ⟨0, true, false⟩ then [10, 11] else []
    callLog := fun _ => []
    scheduled := fun _ => []
    nextId := 1 }

/-- The sample producer after `unsubscribe()` with no argument. -/
def sampleAfterUnsubscribe : ProducerState Nat :=
  { sampleWithDefault with
    subscriptions := sampleWithDefault.subscriptions.erase ⟨0, true, false⟩
    defaultSubscription := none }

end BaseSubscriptionProducer

open BaseSubscriptionProducer in
/-- C8, instantiated: the sample producer still had backlog `[10, 11]` in its
old default subscription; after `unsubscribe()` the recreated default starts
empty, the first `get` suspends rather than returning the backlog, and items
broadcast afterwards arrive in order. -/
theorem claim8_get_default_lifecycle_witness :
    ((get sampleProducer).2.defaultSubscription =
      some (mkDefaultSubscription sampleProducer.nextId)) ∧
    ((get sampleWithDefault).2.defaultSubscription = some ⟨0, true, false⟩) ∧
    ((get sampleAfterUnsubscribe).2.defaultSubscription =
      some (mkDefaultSubscription sampleWithDefault.nextId)) ∧
    (mkDefaultSubscription sampleWithDefault.nextId ≠ ⟨0, true, false⟩) ∧
    ((get sampleAfterUnsubscribe).1 = none) ∧
    ((get sampleAfterUnsubscribe).2.queues
      (mkDefaultSubscription sampleWithDefault.nextId) = []) ∧
    ((List.foldl put_nowait (get sampleAfterUnsubscribe).2 [21, 22]).queues
      (mkDefaultSubscription sampleWithDefault.nextId) = [21, 22]) := by
  have h := (claim8_get_default_lifecycle sampleProducer sampleWithDefault).2.2
    ⟨0, true, false⟩ sampleAfterUnsubscribe rfl rfl (by decide) (by decide)
    (fun o ho => by
      have hne : o ≠ (⟨0, true, false⟩ : Obj) := by
        rintro rfl
        exact absurd ho (by decide)
      simp [sampleWithDefault, hne])
    rfl
  exact ⟨(claim8_get_default_lifecycle sampleProducer sampleWithDefault).1 rfl,
    (claim8_get_default_lifecycle sampleProducer sampleWithDefault).2.1
      ⟨0, true, false⟩ rfl,
    h.1, h.2.1, h.2.2.1, h.2.2.2.1, h.2.2.2.2 [21, 22]⟩

namespace BaseSubscriptionConsumer

variable {α : Type}

theorem cancelGetTask_idem (t : Option TaskInfo) :
    cancelGetTask (cancelGetTask t) = cancelGetTask t := by
  cases t with
  | none => rfl
  | some task => by_cases h : task.done <;> simp [cancelGetTask, h]

theorem close_close (s : ConsumerState α) : close (close s) = close s := by
  cases s
  simp [close, cancelGetTask_idem]

end BaseSubscriptionConsumer

open BaseSubscriptionConsumer in
/-- C3: after `close()` every `_get` call raises `SubscriptionClosed`
immediately — whatever events the script would offer, the loop is never
entered and no data is awaited — and `close` is idempotent: a second call
produces the identical state (same shutdown flag, readiness flag and task
state), so the wait behaviour is unchanged. -/
theorem claim3_close_get_raises (s : ConsumerState α) :
    (∀ script : List (WaitEvent α), get (close s) script = .closed (close s)) ∧
    (∀ s' : ConsumerState α, s'.shouldClose = true →
      ∀ script : List (WaitEvent α), get s' script = .closed s') ∧
    (close (close s) = close s) := by
  refine ⟨fun script => rfl, fun s' h script => ?_, close_close s⟩
  simp [BaseSubscriptionConsumer.get, h]

open BaseSubscriptionConsumer in
/-- C3, instantiated: a freshly initialised consumer, closed once and twice. -/
theorem claim3_close_get_raises_witness :
    (get (close (init Nat true)) [.resolve, .resolve] =
      .closed (close (init Nat true))) ∧
    (close (close (init Nat true)) = close (init Nat true)) :=
  ⟨(claim3_close_get_raises (init Nat true)).2.1 (close (init Nat true)) rfl
    [.resolve, .resolve],
   (claim3_close_get_raises (init Nat true)).2.2⟩

open BaseSubscriptionConsumer in
/-- C10: `close` only touches the shutdown flag, the readiness flag and the
in-flight task — the active-subscription reference, the direct-feed queue
reference and every queue buffer are left untouched, so an externally
installed subscription is still reported by the `subscription` property and
direct-feed data stays buffered. -/
theorem claim10_close_frame (s : ConsumerState α) :
    ((close s)._subscription = s._subscription) ∧
    ((close s).directPutSubscription = s.directPutSubscription) ∧
    ((close s).queues = s.queues) ∧
    (subscription (close s) = subscription s) ∧
    (∀ k : Nat, subscription s = some k → subscription (close s) = some k) ∧
    ((close s).queues s.directPutSubscription =
      s.queues s.directPutSubscription) :=
  ⟨rfl, rfl, rfl, rfl, fun _ h => h, rfl⟩

namespace BaseSubscriptionConsumer

/-- A consumer with the external subscription `5` installed, a wait in flight
against it, and one item buffered in its direct-feed queue `0`. -/
def sampleConsumerExt : ConsumerState Nat :=
  { directPutSubscription := 0
    _subscription := 5
    shouldClose := false
    ready := true
    getTask := some ⟨5, false, false⟩
    queues := fun q => if q = 0 then [42] else []
    nextId := 1 }

end BaseSubscriptionConsumer

open BaseSubscriptionConsumer in
/-- C10, instantiated: closing the sample consumer with external subscription
`5` installed still reports `5`, and the direct-feed buffer is untouched. -/
theorem claim10_close_frame_witness :
    (subscription (close sampleConsumerExt) = some 5) ∧
    ((close sampleConsumerExt).queues sampleConsumerExt.directPutSubscription =
      sampleConsumerExt.queues sampleConsumerExt.directPutSubscription) :=
  ⟨(claim10_close_frame sampleConsumerExt).2.2.2.2.1 5 rfl,
   (claim10_close_frame sampleConsumerExt).2.2.2.2.2⟩

open BaseSubscriptionConsumer in
/-- C4: `put_nowait` on a consumer whose active subscription is external first
detaches it — a fresh direct-feed queue is installed and becomes active, so
the `subscription` property reads back as `none` — and then enqueues the data
into that fresh direct-feed queue; when the direct-feed queue is already
active, the data is appended to it directly. -/
theorem claim4_put_nowait_detaches (s : ConsumerState α) (x : α) :
    (s._subscription ≠ s.directPutSubscription →
      s.queues s.nextId = [] →
      subscription (put_nowait s x) = none ∧
      (put_nowait s x).directPutSubscription = s.nextId ∧
      (put_nowait s x).queues (put_nowait s x).directPutSubscription = [x]) ∧
    (s._subscription = s.directPutSubscription →
      (put_nowait s x).directPutSubscription = s.directPutSubscription ∧
      (put_nowait s x)._subscription = s._subscription ∧
      (put_nowait s x).queues s.directPutSubscription =
        s.queues s.directPutSubscription ++ [x]) := by
  constructor
  · intro h hq
    by_cases hf : s.nextId = s._subscription
    · rw [hf] at hq
      simp [BaseSubscriptionConsumer.put_nowait, stop, putSubscription,
        subscription, h, hf, hq]
    · simp [BaseSubscriptionConsumer.put_nowait, stop, putSubscription,
        subscription, h, hf, hq]
  · intro h
    simp [BaseSubscriptionConsumer.put_nowait, h]

open BaseSubscriptionConsumer in
/-- C4, instantiated: the sample consumer has external subscription `5`
active; `put_nowait 99` detaches it and buffers `99` in the fresh direct-feed
queue, and a second `put_nowait 100` then appends directly. -/
theorem claim4_put_nowait_detaches_witness :
    (subscription (put_nowait sampleConsumerExt 99) = none) ∧
    ((put_nowait sampleConsumerExt 99).directPutSubscription =
      sampleConsumerExt.nextId) ∧
    ((put_nowait sampleConsumerExt 99).queues
      (put_nowait sampleConsumerExt 99).directPutSubscription = [99]) ∧
    ((put_nowait (put_nowait sampleConsumerExt 99) 100).queues
      (put_nowait sampleConsumerExt 99).directPutSubscription = [99, 100]) := by
  have h1 := (claim4_put_nowait_detaches sampleConsumerExt 99).1
    (by decide) (by simp [sampleConsumerExt])
  have h2 := (claim4_put_nowait_detaches (put_nowait sampleConsumerExt 99) 100).2
  refine ⟨h1.1, h1.2.1, h1.2.2, ?_⟩
  have hsub : (put_nowait sampleConsumerExt 99)._subscription =
      (put_nowait sampleConsumerExt 99).directPutSubscription := by
    simp [BaseSubscriptionConsumer.put_nowait, stop, putSubscription,
      sampleConsumerExt]
  rw [(h2 hsub).2.2, h1.2.2]
  rfl

namespace BaseSubscriptionConsumer

variable {α : Type}

/-- Tests whether a wait event is an external consumer-core call. -/
def WaitEvent.isExt : WaitEvent α → Bool
  | .ext _ => true
  | .resolve => false
  | .raiseClosed => false
  | .raiseOther => false

/-- Every live, uncancelled in-flight task waits on the currently active
subscription. -/
def TaskOnActive (s : ConsumerState α) : Prop :=
  ∀ t : TaskInfo, s.getTask = some t → t.done = false → t.cancelled = false →
    t.subId = s._subscription

theorem taskOnActive_startTask (u : ConsumerState α) : TaskOnActive (startTask u) := by
  intro t ht _ _
  simp only [startTask] at ht
  simp only [Option.some.injEq] at ht
  subst ht
  rfl

/-- Provenance: when the wait loop runs without any concurrent external call,
every value it returns was taken from the subscription that was active at
entry. -/
theorem getGo_value_src_of_noExt (script : List (WaitEvent α)) :
    ∀ (s : ConsumerState α) (x : α) (src : Nat) (s' : ConsumerState α),
      (∀ e ∈ script, e.isExt = false) → TaskOnActive s →
      getGo s script = .value x src s' → src = s._subscription := by
  induction script with
  | nil =>
    intro s x src s' _ _ hval
    simp [getGo] at hval
  | cons e rest ih =>
    intro s x src s' hext hta hval
    have hext' : ∀ e' ∈ rest, e'.isExt = false :=
      fun e' he' => hext e' (List.mem_cons_of_mem _ he')
    cases e with
    | ext a =>
      have := hext _ (List.mem_cons_self _ _)
      simp [WaitEvent.isExt] at this
    | resolve =>
      simp only [getGo] at hval
      cases hgt : s.getTask with
      | none =>
        rw [hgt] at hval
        exact ih s x src s' hext' hta hval
      | some t =>
        rw [hgt] at hval
        obtain ⟨subId, cancelled, done⟩ := t
        cases done with
        | true =>
          simp only [if_pos rfl] at hval
          exact ih s x src s' hext' hta hval
        | false =>
          cases cancelled with
          | true =>
            simp only [Bool.false_eq_true, if_false, if_pos rfl] at hval
            cases hsc : (finishTask s).shouldClose with
            | true =>
              rw [hsc] at hval
              simp at hval
            | false =>
              rw [hsc] at hval
              simp only [Bool.false_eq_true, if_false] at hval
              exact ih (startTask (finishTask s)) x src s' hext'
                (taskOnActive_startTask _) hval
          | false =>
            simp only [Bool.false_eq_true, if_false] at hval
            cases hq : s.queues subId with
            | nil =>
              rw [hq] at hval
              exact ih s x src s' hext' hta hval
            | cons y ys =>
              rw [hq] at hval
              simp only [GetOutcome.value.injEq] at hval
              rw [← hval.2.1]
              exact hta ⟨subId, false, false⟩ hgt rfl rfl
    | raiseClosed =>
      simp only [getGo] at hval
      cases hgt : s.getTask with
      | none =>
        rw [hgt] at hval
        exact ih s x src s' hext' hta hval
      | some t =>
        rw [hgt] at hval
        obtain ⟨subId, cancelled, done⟩ := t
        cases done with
        | true =>
          simp only [if_pos rfl] at hval
          exact ih s x src s' hext' hta hval
        | false =>
          simp only [Bool.false_eq_true, if_false] at hval
          cases hsc : (finishTask s).shouldClose with
          | true =>
            rw [hsc] at hval
            simp at hval
          | false =>
            rw [hsc] at hval
            simp only [Bool.false_eq_true, if_false] at hval
            exact ih (startTask (finishTask s)) x src s' hext'
              (taskOnActive_startTask _) hval
    | raiseOther =>
      simp only [getGo] at hval
      cases hgt : s.getTask with
      | none =>
        rw [hgt] at hval
        exact ih s x src s' hext' hta hval
      | some t =>
        rw [hgt] at hval
        obtain ⟨subId, cancelled, done⟩ := t
        cases done with
        | true =>
          simp only [if_pos rfl] at hval
          exact ih s x src s' hext' hta hval
        | false =>
          simp only [Bool.false_eq_true, if_false] at hval
          cases hsc : (finishTask s).shouldClose with
          | true =>
            rw [hsc] at hval
            simp at hval
          | false =>
            rw [hsc] at hval
            simp only [Bool.false_eq_true, if_false] at hval
            exact ih (startTask (finishTask s)) x src s' hext'
              (taskOnActive_startTask _) hval

end BaseSubscriptionConsumer

namespace BaseSubscriptionConsumer

variable {α : Type}

/-- The subscription identity a returned value was taken from, when the
outcome is a value. -/
def GetOutcome.src? : GetOutcome α → Option Nat
  | .value _ src _ => some src
  | .closed _ => none
  | .pending _ => none

end BaseSubscriptionConsumer

open BaseSubscriptionConsumer in
/-- C2: `putSubscription` with the currently active subscription is a no-op;
with a different one it replaces the active reference and cancels a wait in
flight; the wait loop absorbs that cancellation and retries with a task on
the newly active subscription; any other error from the awaited task is
likewise swallowed and retried rather than propagated; and once the new
subscription is installed, a run of the loop (with no further concurrent
calls) only ever returns values drawn from the new subscription, never a
stale value from the old one. -/
theorem claim2_putSubscription_swap (s : ConsumerState α) :
    (putSubscription s s._subscription = s) ∧
    (∀ k : Nat, k ≠ s._subscription → (putSubscription s k)._subscription = k) ∧
    (∀ (k : Nat) (t : TaskInfo), k ≠ s._subscription → s.getTask = some t →
      t.done = false →
      (putSubscription s k).getTask = some { t with cancelled := true }) ∧
    (∀ (t : TaskInfo) (rest : List (WaitEvent α)), s.getTask = some t →
      t.done = false → t.cancelled = true → s.shouldClose = false →
      getGo s (.resolve :: rest) = getGo (startTask (finishTask s)) rest ∧
      (startTask (finishTask s)).getTask = some ⟨s._subscription, false, false⟩) ∧
    (∀ (t : TaskInfo) (rest : List (WaitEvent α)), s.getTask = some t →
      t.done = false → s.shouldClose = false →
      getGo s (.raiseOther :: rest) = getGo (startTask (finishTask s)) rest) ∧
    (∀ (k : Nat) (t : TaskInfo) (script : List (WaitEvent α)) (x : α)
      (src : Nat) (s' : ConsumerState α),
      k ≠ s._subscription → s.getTask = some t → t.done = false →
      (∀ e ∈ script, WaitEvent.isExt e = false) →
      getGo (putSubscription s k) script = .value x src s' → src = k) := by
  refine ⟨by simp [putSubscription], fun k hk => by simp [putSubscription, hk],
    fun k t hk hgt hd => by simp [putSubscription, hk, cancelGetTask, hgt, hd],
    fun t rest hgt hd hc hsc => ?_, fun t rest hgt hd hsc => ?_,
    fun k t script x src s' hk hgt hd hscript hval => ?_⟩
  · obtain ⟨subId, cancelled, done⟩ := t
    cases done with
    | true => simp at hd
    | false =>
      cases cancelled with
      | true =>
        constructor
        · simp [getGo, hgt, finishTask, hsc]
        · rfl
      | false => simp at hc
  · obtain ⟨subId, cancelled, done⟩ := t
    cases done with
    | true => simp at hd
    | false => simp [getGo, hgt, finishTask, hsc]
  · have hswap : (putSubscription s k).getTask =
        some { t with cancelled := true } := by
      simp [putSubscription, hk, cancelGetTask, hgt, hd]
    have hta : TaskOnActive (putSubscription s k) := by
      intro t' ht' _ hcanc
      rw [hswap] at ht'
      simp only [Option.some.injEq] at ht'
      rw [← ht'] at hcanc
      simp at hcanc
    have hsrc := getGo_value_src_of_noExt script (putSubscription s k)
      x src s' hscript hta hval
    rw [hsrc]
    simp [putSubscription, hk]

open BaseSubscriptionConsumer in
/-- C2, instantiated: the sample consumer is waiting on external subscription
`5`; installing subscription `0` (the direct-feed queue, which holds `42`)
cancels the in-flight task, and an undisturbed run of the loop then yields
`42` from subscription `0`, not from `5`. -/
theorem claim2_putSubscription_swap_witness :
    (putSubscription sampleConsumerExt 5 = sampleConsumerExt) ∧
    ((putSubscription sampleConsumerExt 0)._subscription = 0) ∧
    ((putSubscription sampleConsumerExt 0).getTask = some ⟨5, true, false⟩) ∧
    ((getGo (putSubscription sampleConsumerExt 0) [.resolve, .resolve]).src? =
      some 0) := by
  have hc := claim2_putSubscription_swap sampleConsumerExt
  refine ⟨hc.1, hc.2.1 0 (by decide),
    hc.2.2.1 0 ⟨5, false, false⟩ (by decide) rfl rfl, ?_⟩
  cases hout : getGo (putSubscription sampleConsumerExt 0) [.resolve, .resolve] with
  | value x src s' =>
    have hs := hc.2.2.2.2.2 0 ⟨5, false, false⟩ [.resolve, .resolve] x src s'
      (by decide) rfl rfl (by simp [WaitEvent.isExt]) hout
    simp [GetOutcome.src?, hs]
  | closed s' =>
    have h0 : (getGo (putSubscription sampleConsumerExt 0)
        [.resolve, .resolve]).src? = some 0 := rfl
    rw [hout] at h0
    simp [GetOutcome.src?] at h0
  | pending s' =>
    have h0 : (getGo (putSubscription sampleConsumerExt 0)
        [.resolve, .resolve]).src? = some 0 := rfl
    rw [hout] at h0
    simp [GetOutcome.src?] at h0

open BaseSubscriptionConsumer ThreadedSubscriptionConsumer in
/-- C7: in `ThreadedSubscriptionConsumer._get`, when the bounded one-second
wait on the cross-thread result handle times out, the loop goes back to its
head and re-checks the shutdown flag — raising the terminal closed signal
when it has been set meanwhile, and otherwise submitting a fresh wait — so a
timeout is never surfaced to the caller as an outcome of its own. -/
theorem claim7_timeout_loops_back (s : ConsumerState α) (t : TaskInfo)
    (rest : List (TWaitEvent α)) :
    (s.getTask = some t → t.done = false → s.shouldClose = false →
      tGetGo s (.timeout :: rest) = tGetGo (startTask s) rest) ∧
    (s.getTask = some t → t.done = false → s.shouldClose = true →
      tGetGo s (.timeout :: rest) = .closed s) := by
  constructor
  · intro hgt hd hsc
    obtain ⟨subId, cancelled, done⟩ := t
    cases done with
    | true => simp at hd
    | false => simp [tGetGo, hgt, hsc]
  · intro hgt hd hsc
    obtain ⟨subId, cancelled, done⟩ := t
    cases done with
    | true => simp at hd
    | false => simp [tGetGo, hgt, hsc]

open BaseSubscriptionConsumer ThreadedSubscriptionConsumer in
/-- C7, instantiated: the sample consumer's bounded wait times out while open
(the loop re-submits a wait) and while closing (the loop raises the closed
signal). -/
theorem claim7_timeout_loops_back_witness :
    (tGetGo sampleConsumerExt [TWaitEvent.timeout] =
      tGetGo (startTask sampleConsumerExt) []) ∧
    (tGetGo { sampleConsumerExt with shouldClose := true }
        [TWaitEvent.timeout] =
      .closed { sampleConsumerExt with shouldClose := true }) :=
  ⟨(claim7_timeout_loops_back sampleConsumerExt ⟨5, false, false⟩ []).1
    rfl rfl rfl,
   (claim7_timeout_loops_back { sampleConsumerExt with shouldClose := true }
      ⟨5, false, false⟩ []).2 rfl rfl rfl⟩

namespace BaseSubscriptionProducer

variable {α : Type}

theorem subscribe_shouldClose (s : ProducerState α) (a : Option Obj) :
    (subscribe s a).1.shouldClose = s.shouldClose := by
  cases a with
  | none => simp [subscribe_none_eq]
  | some o =>
    by_cases h1 : o.hasPutNowait <;> by_cases h2 : o.isCoroutineFunction <;>
      simp [subscribe, h1, h2]

theorem unsubscribeObj_ok_shouldClose {s s' : ProducerState α} {o : Obj}
    (h : unsubscribeObj s o = .ok s') : s'.shouldClose = s.shouldClose := by
  unfold unsubscribeObj at h
  split_ifs at h <;> try exact Except.noConfusion h
  all_goals injection h with h
  all_goals rw [← h]

theorem unsubscribe_ok_shouldClose {s s' : ProducerState α} {a : Option Obj}
    (h : unsubscribe s a = .ok s') : s'.shouldClose = s.shouldClose := by
  match a with
  | some o => exact unsubscribeObj_ok_shouldClose h
  | none =>
    cases hd : s.defaultSubscription with
    | none =>
      simp only [unsubscribe, hd] at h
      injection h with h
      rw [← h]
    | some d =>
      simp only [unsubscribe, hd] at h
      cases hobj : unsubscribeObj s d with
      | error e =>
        rw [hobj] at h
        exact Except.noConfusion h
      | ok u =>
        rw [hobj] at h
        simp only [Except.map] at h
        injection h with h
        rw [← h]
        have hu := unsubscribeObj_ok_shouldClose hobj
        exact hu

theorem defaultSubscribe_shouldClose (s : ProducerState α) :
    (defaultSubscribe s).shouldClose = s.shouldClose := by
  cases hd : s.defaultSubscription with
  | some d => rw [defaultSubscribe_of_some hd]
  | none =>
    rw [defaultSubscribe_of_none hd]
    simp [subscribe_none_eq]

theorem get_shouldClose (s : ProducerState α) :
    (get s).2.shouldClose = s.shouldClose := by
  unfold get
  cases hd : (defaultSubscribe s).defaultSubscription with
  | none => simp [hd, defaultSubscribe_shouldClose]
  | some d =>
    cases hq : (defaultSubscribe s).queues d <;>
      simp [hd, hq, defaultSubscribe_shouldClose]

end BaseSubscriptionProducer

namespace BaseSubscriptionConsumer

variable {α : Type}

theorem putSubscription_shouldClose (s : ConsumerState α) (k : Nat) :
    (putSubscription s k).shouldClose = s.shouldClose := by
  by_cases h : k = s._subscription <;> simp [putSubscription, h]

theorem stop_shouldClose (s : ConsumerState α) :
    (stop s).shouldClose = s.shouldClose := by
  unfold stop
  rw [putSubscription_shouldClose]

theorem put_nowait_shouldClose (s : ConsumerState α) (x : α) :
    (put_nowait s x).shouldClose = s.shouldClose := by
  by_cases h : s._subscription ≠ s.directPutSubscription <;>
    simp [put_nowait, h, stop_shouldClose]

theorem applyAction_shouldClose_mono {s : ConsumerState α}
    (h : s.shouldClose = true) (a : ConsumerAction α) :
    (applyAction s a).shouldClose = true := by
  cases a with
  | putSub k => rw [applyAction, putSubscription_shouldClose]; exact h
  | putNowait x => rw [applyAction, put_nowait_shouldClose]; exact h
  | stopA => rw [applyAction, stop_shouldClose]; exact h
  | closeA => rfl

/-- The consumer state carried by a wait-loop outcome. -/
def GetOutcome.state : GetOutcome α → ConsumerState α
  | .value _ _ s => s
  | .closed s => s
  | .pending s => s

theorem getGo_state_shouldClose_mono (script : List (WaitEvent α)) :
    ∀ s : ConsumerState α, s.shouldClose = true →
      ((getGo s script).state).shouldClose = true := by
  induction script with
  | nil => intro s h; exact h
  | cons e rest ih =>
    intro s h
    cases e with
    | ext a =>
      exact ih (applyAction s a) (applyAction_shouldClose_mono h a)
    | resolve =>
      simp only [getGo]
      cases hgt : s.getTask with
      | none => exact ih s h
      | some t =>
        obtain ⟨subId, cancelled, done⟩ := t
        cases done with
        | true => simp only [if_pos rfl]; exact ih s h
        | false =>
          cases cancelled with
          | true =>
            have hfc : (finishTask s).shouldClose = true := h
            simp only [Bool.false_eq_true, if_false, if_pos rfl, hfc, if_true]
            exact h
          | false =>
            simp only [Bool.false_eq_true, if_false]
            cases hq : s.queues subId with
            | nil => exact ih s h
            | cons y ys => exact h
    | raiseClosed =>
      simp only [getGo]
      cases hgt : s.getTask with
      | none => exact ih s h
      | some t =>
        obtain ⟨subId, cancelled, done⟩ := t
        cases done with
        | true => simp only [if_pos rfl]; exact ih s h
        | false =>
          have hfc : (finishTask s).shouldClose = true := h
          simp only [Bool.false_eq_true, if_false, hfc, if_true]
          exact h
    | raiseOther =>
      simp only [getGo]
      cases hgt : s.getTask with
      | none => exact ih s h
      | some t =>
        obtain ⟨subId, cancelled, done⟩ := t
        cases done with
        | true => simp only [if_pos rfl]; exact ih s h
        | false =>
          have hfc : (finishTask s).shouldClose = true := h
          simp only [Bool.false_eq_true, if_false, hfc, if_true]
          exact h

theorem get_state_shouldClose_mono {s : ConsumerState α}
    (script : List (WaitEvent α)) (h : s.shouldClose = true) :
    ((get s script).state).shouldClose = true := by
  unfold BaseSubscriptionConsumer.get
  rw [h]
  exact h

end BaseSubscriptionConsumer

namespace ThreadedSubscriptionConsumer

variable {α : Type}

open BaseSubscriptionConsumer in
theorem tGetGo_state_shouldClose_mono (script : List (TWaitEvent α)) :
    ∀ s : ConsumerState α, s.shouldClose = true →
      ((tGetGo s script).state).shouldClose = true := by
  induction script with
  | nil => intro s h; exact h
  | cons e rest ih =>
    intro s h
    cases e with
    | ext a =>
      exact ih (applyAction s a) (applyAction_shouldClose_mono h a)
    | resolve =>
      simp only [tGetGo]
      cases hgt : s.getTask with
      | none => exact ih s h
      | some t =>
        obtain ⟨subId, cancelled, done⟩ := t
        cases done with
        | true => simp only [if_pos rfl]; exact ih s h
        | false =>
          cases cancelled with
          | true =>
            have hfc : (finishTask s).shouldClose = true := h
            simp only [Bool.false_eq_true, if_false, if_pos rfl, hfc, if_true]
            exact h
          | false =>
            simp only [Bool.false_eq_true, if_false]
            cases hq : s.queues subId with
            | nil => exact ih s h
            | cons y ys => exact h
    | timeout =>
      simp only [tGetGo]
      cases hgt : s.getTask with
      | none => exact ih s h
      | some t =>
        obtain ⟨subId, cancelled, done⟩ := t
        cases done with
        | true => simp only [if_pos rfl]; exact ih s h
        | false =>
          simp only [Bool.false_eq_true, if_false, h, if_true]
          exact h
    | raiseClosed =>
      simp only [tGetGo]
      cases hgt : s.getTask with
      | none => exact ih s h
      | some t =>
        obtain ⟨subId, cancelled, done⟩ := t
        cases done with
        | true => simp only [if_pos rfl]; exact ih s h
        | false =>
          have hfc : (finishTask s).shouldClose = true := h
          simp only [Bool.false_eq_true, if_false, hfc, if_true]
          exact h

open BaseSubscriptionConsumer in
theorem tGet_state_shouldClose_mono {s : ConsumerState α}
    (script : List (TWaitEvent α)) (h : s.shouldClose = true) :
    ((tGet s script).state).shouldClose = true := by
  unfold tGet
  rw [h]
  exact h

end ThreadedSubscriptionConsumer

/-- C9: the shutdown flag is monotonic — every public operation of the
producer core, the consumer core and the thread/process-bridged variants
preserves a set flag, and every `close` sets it; no operation ever resets it
to false once set. -/
theorem claim9_shouldClose_monotone (α : Type) :
    (∀ (s : ProducerState α) (x : α), s.shouldClose = true →
      (BaseSubscriptionProducer.put_nowait s x).shouldClose = true) ∧
    (∀ (s : ProducerState α) (a : Option Obj), s.shouldClose = true →
      (BaseSubscriptionProducer.subscribe s a).1.shouldClose = true) ∧
    (∀ (s s' : ProducerState α) (a : Option Obj),
      BaseSubscriptionProducer.unsubscribe s a = .ok s' →
      s.shouldClose = true → s'.shouldClose = true) ∧
    (∀ s : ProducerState α, s.shouldClose = true →
      (BaseSubscriptionProducer.unsubscribeAll s).shouldClose = true) ∧
    (∀ s : ProducerState α, s.shouldClose = true →
      (BaseSubscriptionProducer.get s).2.shouldClose = true) ∧
    (∀ s : ProducerState α,
      (BaseSubscriptionProducer.close s).shouldClose = true) ∧
    (∀ s : ProducerState α,
      (ThreadedSubscriptionProducer.close s).shouldClose = true) ∧
    (∀ (s : ConsumerState α) (k : Nat), s.shouldClose = true →
      (BaseSubscriptionConsumer.putSubscription s k).shouldClose = true) ∧
    (∀ (s : ConsumerState α) (x : α), s.shouldClose = true →
      (BaseSubscriptionConsumer.put_nowait s x).shouldClose = true) ∧
    (∀ s : ConsumerState α, s.shouldClose = true →
      (BaseSubscriptionConsumer.stop s).shouldClose = true) ∧
    (∀ s : ConsumerState α,
      (BaseSubscriptionConsumer.close s).shouldClose = true) ∧
    (∀ s : ConsumerState α,
      (ThreadedSubscriptionConsumer.close s).shouldClose = true) ∧
    (∀ (s : ConsumerState α)
      (script : List (BaseSubscriptionConsumer.WaitEvent α)),
      s.shouldClose = true →
      ((BaseSubscriptionConsumer.getGo s script).state).shouldClose = true) ∧
    (∀ (s : ConsumerState α)
      (script : List (ThreadedSubscriptionConsumer.TWaitEvent α)),
      s.shouldClose = true →
      ((ThreadedSubscriptionConsumer.tGetGo s script).state).shouldClose =
        true) ∧
    (∀ (s : ProcessProducerState α) (x : α),
      ProcessSubscriptionProducer.shouldClose s = true →
      ProcessSubscriptionProducer.shouldClose
        (ProcessSubscriptionProducer.put_nowait s x) = true) ∧
    (∀ (s : ProcessProducerState α) (a : Option Obj),
      ProcessSubscriptionProducer.shouldClose s = true →
      ProcessSubscriptionProducer.shouldClose
        ((ProcessSubscriptionProducer.subscribe s a).1) = true) ∧
    (∀ s : ProcessProducerState α,
      ProcessSubscriptionProducer.shouldClose s = true →
      ProcessSubscriptionProducer.shouldClose
        (ProcessSubscriptionProducer.queueReaderStep s) = true) ∧
    (∀ s : ProcessProducerState α,
      ProcessSubscriptionProducer.shouldClose
        (ProcessSubscriptionProducer.close s) = true) ∧
    (∀ s : ProcessProducerState α,
      ProcessSubscriptionProducer.shouldClose
        (ProcessSubscriptionProducer.producerSetupExit s) = true) := by
  refine ⟨fun s x h => h,
    fun s a h => by rw [BaseSubscriptionProducer.subscribe_shouldClose]; exact h,
    fun s s' a hok h => by
      rw [BaseSubscriptionProducer.unsubscribe_ok_shouldClose hok]; exact h,
    fun s h => h,
    fun s h => by rw [BaseSubscriptionProducer.get_shouldClose]; exact h,
    fun s => rfl,
    fun s => rfl,
    fun s k h => by
      rw [BaseSubscriptionConsumer.putSubscription_shouldClose]; exact h,
    fun s x h => by
      rw [BaseSubscriptionConsumer.put_nowait_shouldClose]; exact h,
    fun s h => by rw [BaseSubscriptionConsumer.stop_shouldClose]; exact h,
    fun s => rfl,
    fun s => rfl,
    fun s script h =>
      BaseSubscriptionConsumer.getGo_state_shouldClose_mono script s h,
    fun s script h =>
      ThreadedSubscriptionConsumer.tGetGo_state_shouldClose_mono script s h,
    fun s x h => h,
    fun s a h => h,
    fun s h => by
      have h' : s.closeEvent = true := h
      simp [ProcessSubscriptionProducer.queueReaderStep,
        ProcessSubscriptionProducer.shouldClose, h'],
    fun s => rfl,
    fun s => rfl⟩

/-- C9, instantiated: a closed sample producer and consumer stay closed under
a representative operation of each kind. -/
theorem claim9_shouldClose_monotone_witness :
    ((BaseSubscriptionProducer.put_nowait
        (BaseSubscriptionProducer.close BaseSubscriptionProducer.sampleProducer)
        3).shouldClose = true) ∧
    ((BaseSubscriptionConsumer.putSubscription
        (BaseSubscriptionConsumer.close
          BaseSubscriptionConsumer.sampleConsumerExt) 7).shouldClose = true) ∧
    (((BaseSubscriptionConsumer.getGo
        (BaseSubscriptionConsumer.close
          BaseSubscriptionConsumer.sampleConsumerExt)
        [.resolve]).state).shouldClose = true) :=
  ⟨(claim9_shouldClose_monotone Nat).1 _ 3 rfl,
   (claim9_shouldClose_monotone Nat).2.2.2.2.2.2.2.1 _ 7 rfl,
   (claim9_shouldClose_monotone Nat).2.2.2.2.2.2.2.2.2.2.2.2.1 _ [.resolve] rfl⟩
